import Mathlib

set_option linter.unusedVariables false

/-!
Shallow embedding of the LunaFlow client (src/app/page.tsx): data model,
onboarding flow, AI extraction adapter, cycle-log append, theme heuristic,
daily check-in trigger, and the JSON persistence layer.  Stateful React
code is modelled as explicit state passing over an `AppState` record; the
external generative-model call is modelled as a `CallOutcome` parameter
(request/decode failure, or a decoded payload).
-/

namespace LunaFlow

/-! ## JS string helpers -/

/-- Whitespace recognised by JavaScript String.prototype.trim
(ECMAScript WhiteSpace and LineTerminator code points, common subset). -/
def isJsWhitespace (c : Char) : Bool :=
  c = ' ' || c = '\t' || c = '\n' || c = '\r' ||
  c = '\x0b' || c = '\x0c' || c = '\u00A0' || c = '\u2028' || c = '\u2029' || c = '\uFEFF'

/-- JavaScript `s.trim()`. -/
def jsTrim (s : String) : String :=
  ⟨((s.data.dropWhile isJsWhitespace).reverse.dropWhile isJsWhitespace).reverse⟩

/-! ## Data model (interfaces Profile, Insight, CycleLog, Message) -/

/-- `preferences.goal`: "Health Tracking" | "Planning" | "Symptom Management". -/
inductive Goal where
  | healthTracking
  | planning
  | symptomManagement
deriving DecidableEq, Repr

/-- `preferences.checkInFrequency`: "Morning" | "Evening" | "Both". -/
inductive CheckInFrequency where
  | morning
  | evening
  | both
deriving DecidableEq, Repr

/-- Interface `Insight`.  `confidence` is a JSON number, modelled as `Rat`. -/
structure Insight where
  pattern : String
  confidence : Rat
  learnedDate : String
deriving DecidableEq, Repr

structure Preferences where
  goal : Goal
  checkInFrequency : CheckInFrequency
deriving DecidableEq, Repr

/-- Interface `Profile`. -/
structure Profile where
  name : String
  onboardingComplete : Bool
  preferences : Preferences
  insights : List Insight
deriving DecidableEq, Repr

/-- `flow`: "Light" | "Medium" | "Heavy" | "Spotting" (or null, via `Option`). -/
inductive Flow where
  | light
  | medium
  | heavy
  | spotting
deriving DecidableEq, Repr

/-- Interface `CycleLog`. -/
structure CycleLog where
  date : String
  mood : String
  symptoms : List String
  flow : Option Flow
  note : String
deriving DecidableEq, Repr

/-- `sender`: "user" | "nora". -/
inductive Sender where
  | user
  | nora
deriving DecidableEq, Repr

/-- `type`: "text" | "log-confirmation". -/
inductive MessageType where
  | text
  | logConfirmation
deriving DecidableEq, Repr

/-- The structured `extracted_data` payload the adapter may return
(`mood`, `symptoms`, `flow`, `emotional_note`; each may be null/absent). -/
structure Extraction where
  mood : Option String
  symptoms : Option (List String)
  flow : Option Flow
  emotional_note : Option String
deriving DecidableEq, Repr

/-- Interface `Message`.  `type` and `data` are optional; `data` mirrors
the extraction payload. -/
structure Message where
  id : String
  sender : Sender
  text : String
  timestamp : Nat
  type : Option MessageType
  data : Option Extraction
deriving DecidableEq, Repr

/-! ## Theme logic (`getTheme`) -/

def defaultTheme : String := "from-[#f5f3ff] via-[#faf5ff] to-[#f0fdf4]"

def painTheme : String := "from-[#e0f2fe] via-[#f3e8ff] to-[#e0e7ff]"

def positiveTheme : String := "from-[#fff1f2] via-[#fff7ed] to-[#ecfccb]"

def negativeTheme : String := "from-[#fff1f2] via-[#fdf2f8] to-[#f5f3ff]"

/-- `getTheme`: pure function of the logs state; reads only
`logs[logs.length - 1]` when the sequence is non-empty. -/
def getTheme (logs : List CycleLog) : String :=
  match logs.getLast? with
  | none => defaultTheme
  | some lastLog =>
    if lastLog.symptoms.contains "Cramps" || lastLog.mood == "Pain" then painTheme
    else if lastLog.mood == "Energetic" || lastLog.mood == "Happy" then positiveTheme
    else if lastLog.mood == "Sad" || lastLog.mood == "Irritable" then negativeTheme
    else defaultTheme

/-! ## AI extraction adapter (`generateAIResponse`) -/

/-- Shape of the object `generateAIResponse` returns: either the decoded
model payload (expected keys `response` and `extracted_data`), or one of the
two fixed local results, which use the keys `text` / `response`.  Absent or
null keys are `none`. -/
structure AIResult where
  response : Option String
  text : Option String
  extracted_data : Option Extraction
deriving DecidableEq, Repr

/-- Outcome of the external call followed by the JSON decode of its reply:
`failure` is a thrown request error or a JSON.parse error (both land in the
same catch block); `success r` is a decoded payload. -/
inductive CallOutcome where
  | failure
  | success (r : AIResult)
deriving DecidableEq, Repr

/-- Reply returned when no API key is configured. -/
def apiKeyMissingReply : String :=
  "I need a Gemini API key to work my magic! Please add it in settings."

/-- Fixed empathetic fallback reply for request/decode failures. -/
def fallbackReply : String :=
  "I\x27m having a little trouble connecting to my brain right now. 💜 But I\x27m listening."

/-- `generateAIResponse`.  The `Bool` component records whether the external
model was constructed and invoked (a network request was made).  With an
empty key the function returns before touching the model, so the result is
independent of `outcome` and the flag is `false`. -/
def generateAIResponse (apiKey : String) (userInput : String)
    (currentLogs : List CycleLog) (userProfile : Profile)
    (outcome : CallOutcome) : AIResult × Bool :=
  if apiKey == "" then
    ({ response := none, text := some apiKeyMissingReply, extracted_data := none }, false)
  else
    match outcome with
    | .success r => (r, true)
    | .failure =>
      ({ response := some fallbackReply, text := none, extracted_data := none }, true)

/-! ## Application state and handlers -/

/-- The component state relevant to the claims: React state plus the
localStorage check-in marker (`luna_last_checkin`, absent = `none`). -/
structure AppState where
  profile : Option Profile
  logs : List CycleLog
  chatHistory : List Message
  inputValue : String
  apiKey : String
  lastCheckIn : Option String
deriving DecidableEq, Repr

/-- JS truthiness of a string-or-null value: null/undefined and "" are falsy. -/
def jsTruthyStr : Option String → Bool
  | none => false
  | some s => s != ""

/-- `aiResult.extracted_data.symptoms?.length > 0` (optional chaining:
undefined compares false). -/
def symptomsNonempty : Option (List String) → Bool
  | none => false
  | some l => decide (0 < l.length)

/-- The `hasData` guard of `handleSendMessage`, restricted to a present
`extracted_data` object: `mood || symptoms?.length > 0 || flow`. -/
def extractionPresent (e : Extraction) : Bool :=
  jsTruthyStr e.mood || symptomsNonempty e.symptoms || e.flow.isSome

/-- JavaScript `a || b` on string-or-null values ("" is falsy). -/
def jsOrElseStr (a b : Option String) : Option String :=
  match a with
  | some s => if s == "" then b else some s
  | none => b

/-- `aiResult.response || aiResult.text`, as the `text` of the assistant
message (undefined rendered as the empty string). -/
def replyText (r : AIResult) : String :=
  (jsOrElseStr r.response r.text).getD ""

/-- The CycleLog entry built in `handleSendMessage` when `hasData` holds:
`mood || "Neutral"`, `symptoms || []`, `flow || null`,
`emotional_note || ""`, and `date` is the creation timestamp `nowISO`. -/
def logFromExtraction (nowISO : String) (e : Extraction) : CycleLog :=
  { date := nowISO
    mood := match e.mood with
      | some s => if s == "" then "Neutral" else s
      | none => "Neutral"
    symptoms := e.symptoms.getD []
    flow := e.flow
    note := e.emotional_note.getD "" }

/-- The user Message appended at the start of `handleSendMessage`. -/
def mkUserMsg (now : Nat) (textInput : String) : Message :=
  { id := toString now, sender := .user, text := textInput, timestamp := now,
    type := none, data := none }

/-- The assistant acknowledgment appended by `handleOnboardingStep`. -/
def onboardingAck (now : Nat) (name : String) : Message :=
  { id := toString now, sender := .nora,
    text := "Nice to meet you, " ++ name ++ "! 🌙 What brings you here?",
    timestamp := now, type := none, data := none }

/-- `handleOnboardingStep`: when no Profile exists, create one with the input
as name and default preferences, append the acknowledgment, then mark
onboarding complete (two `setProfile` calls in the source). -/
def handleOnboardingStep (st : AppState) (input : String) (now : Nat) : AppState :=
  match st.profile with
  | some _ => st
  | none =>
    let newProfile : Profile :=
      { name := input, onboardingComplete := false,
        preferences := { goal := .healthTracking, checkInFrequency := .morning },
        insights := [] }
    let st1 := { st with profile := some newProfile,
                         chatHistory := st.chatHistory ++ [onboardingAck now input] }
    { st1 with profile := st1.profile.map (fun p => { p with onboardingComplete := true }) }

/-- `handleSendMessage`: early-return on blank input; append the user message
and clear the input; with a Profile, run the adapter, append the assistant
message (log-confirmation with data iff `hasData`), and append a CycleLog
entry iff `hasData`; without a Profile, run the onboarding step. -/
def handleSendMessage (st : AppState) (now : Nat) (nowISO : String)
    (outcome : CallOutcome) : AppState :=
  if jsTrim st.inputValue == "" then st
  else
    let st1 := { st with chatHistory := st.chatHistory ++ [mkUserMsg now st.inputValue],
                         inputValue := "" }
    match st.profile with
    | none => handleOnboardingStep st1 st.inputValue now
    | some prof =>
      let aiResult := (generateAIResponse st.apiKey st.inputValue st.logs prof outcome).1
      match aiResult.extracted_data with
      | none =>
        { st1 with chatHistory := st1.chatHistory ++
            [{ id := toString (now + 1), sender := .nora, text := replyText aiResult,
               timestamp := now, type := some .text, data := none }] }
      | some e =>
        if extractionPresent e then
          { st1 with
            chatHistory := st1.chatHistory ++
              [{ id := toString (now + 1), sender := .nora, text := replyText aiResult,
                 timestamp := now, type := some .logConfirmation, data := some e }],
            logs := st1.logs ++ [logFromExtraction nowISO e] }
        else
          { st1 with chatHistory := st1.chatHistory ++
              [{ id := toString (now + 1), sender := .nora, text := replyText aiResult,
                 timestamp := now, type := some .text, data := none }] }

/-! ## Daily check-in trigger (`checkIn`) -/

/-- The scripted morning check-in Message. -/
def checkInMsg (now : Nat) (name : String) : Message :=
  { id := "daily-checkin-" ++ toString now, sender := .nora,
    text := "Good morning " ++ name ++ "! ☀️ Ready to log for today?",
    timestamp := now, type := none, data := none }

/-- `checkIn`: the effect is installed only when a Profile exists; it fires
when the persisted marker differs from today (device-local `toDateString`)
and the local hour is at least 9, appending the scripted message and
updating the marker in the same step. -/
def checkIn (st : AppState) (todayStr : String) (hour : Nat) (now : Nat) : AppState :=
  match st.profile with
  | none => st
  | some prof =>
    if st.lastCheckIn ≠ some todayStr ∧ 9 ≤ hour then
      { st with chatHistory := st.chatHistory ++ [checkInMsg now prof.name],
                lastCheckIn := some todayStr }
    else st

/-! ## Operations of the program (for the append-only invariant) -/

/-- The state-mutating operations of the component: a chat submission, a
check-in tick, and the two input-field writes. -/
inductive Op where
  | send (now : Nat) (nowISO : String) (outcome : CallOutcome)
  | checkin (todayStr : String) (hour : Nat) (now : Nat)
  | setInput (s : String)
  | setApiKey (s : String)
deriving Repr

def applyOp (st : AppState) : Op → AppState
  | .send now nowISO outcome => handleSendMessage st now nowISO outcome
  | .checkin d h n => checkIn st d h n
  | .setInput s => { st with inputValue := s }
  | .setApiKey s => { st with apiKey := s }

/-! ## Persistence layer

Each store is serialized with `JSON.stringify` into its localStorage slot and
decoded with `JSON.parse` at startup.  The JSON text is modelled by its parse
tree (`Json`); `JSON.stringify` of a value is the encoder into that tree
(`undefined`-valued optional properties are omitted, as stringify does), and
`JSON.parse` followed by how the program reads the object is the decoder. -/

inductive Json where
  | null
  | bool (b : Bool)
  | num (q : Rat)
  | str (s : String)
  | arr (elems : List Json)
  | obj (fields : List (String × Json))
deriving Repr

def Goal.toStr : Goal → String
  | .healthTracking => "Health Tracking"
  | .planning => "Planning"
  | .symptomManagement => "Symptom Management"

def Goal.ofStr (s : String) : Option Goal :=
  if s == "Health Tracking" then some .healthTracking
  else if s == "Planning" then some .planning
  else if s == "Symptom Management" then some .symptomManagement
  else none

def CheckInFrequency.toStr : CheckInFrequency → String
  | .morning => "Morning"
  | .evening => "Evening"
  | .both => "Both"

def CheckInFrequency.ofStr (s : String) : Option CheckInFrequency :=
  if s == "Morning" then some .morning
  else if s == "Evening" then some .evening
  else if s == "Both" then some .both
  else none

def Flow.toStr : Flow → String
  | .light => "Light"
  | .medium => "Medium"
  | .heavy => "Heavy"
  | .spotting => "Spotting"

def Flow.ofStr (s : String) : Option Flow :=
  if s == "Light" then some .light
  else if s == "Medium" then some .medium
  else if s == "Heavy" then some .heavy
  else if s == "Spotting" then some .spotting
  else none

def Sender.toStr : Sender → String
  | .user => "user"
  | .nora => "nora"

def Sender.ofStr (s : String) : Option Sender :=
  if s == "user" then some .user
  else if s == "nora" then some .nora
  else none

def MessageType.toStr : MessageType → String
  | .text => "text"
  | .logConfirmation => "log-confirmation"

def MessageType.ofStr (s : String) : Option MessageType :=
  if s == "text" then some .text
  else if s == "log-confirmation" then some .logConfirmation
  else none

/-- A JSON number read back as the Nat it was written from. -/
def natFromJson : Json → Option Nat
  | .num q => if q.den = 1 ∧ 0 ≤ q.num then some q.num.toNat else none
  | _ => none

def encodeOptStr : Option String → Json
  | none => .null
  | some s => .str s

def decodeOptStr : Json → Option (Option String)
  | .null => some none
  | .str s => some (some s)
  | _ => none

def encodeOptFlow : Option Flow → Json
  | none => .null
  | some f => .str f.toStr

def decodeOptFlow : Json → Option (Option Flow)
  | .null => some none
  | .str s => (Flow.ofStr s).map some
  | _ => none

def decodeStr : Json → Option String
  | .str s => some s
  | _ => none

/-- Decode every element of a JSON array, failing if any element fails. -/
def decodeListWith {α : Type} (g : Json → Option α) : List Json → Option (List α)
  | [] => some []
  | j :: js => do
    let a ← g j
    let t ← decodeListWith g js
    some (a :: t)

def encodeStrList (l : List String) : Json :=
  .arr (l.map Json.str)

def decodeStrList : Json → Option (List String)
  | .arr xs => decodeListWith decodeStr xs
  | _ => none

def encodeOptStrList : Option (List String) → Json
  | none => .null
  | some l => encodeStrList l

def decodeOptStrList : Json → Option (Option (List String))
  | .null => some none
  | .arr xs => (decodeListWith decodeStr xs).map some
  | _ => none

def encodeInsight (i : Insight) : Json :=
  .obj [("pattern", .str i.pattern), ("confidence", .num i.confidence),
        ("learnedDate", .str i.learnedDate)]

def decodeInsight : Json → Option Insight
  | .obj [("pattern", .str p), ("confidence", .num c), ("learnedDate", .str d)] =>
    some { pattern := p, confidence := c, learnedDate := d }
  | _ => none

/-- Serialization of the Profile store (`luna_profile`). -/
def encodeProfile (p : Profile) : Json :=
  .obj [("name", .str p.name),
        ("onboardingComplete", .bool p.onboardingComplete),
        ("preferences",
          .obj [("goal", .str p.preferences.goal.toStr),
                ("checkInFrequency", .str p.preferences.checkInFrequency.toStr)]),
        ("insights", .arr (p.insights.map encodeInsight))]

def decodeProfile : Json → Option Profile
  | .obj [("name", .str n), ("onboardingComplete", .bool b),
          ("preferences", .obj [("goal", .str g), ("checkInFrequency", .str f)]),
          ("insights", .arr is)] => do
    let goal ← Goal.ofStr g
    let freq ← CheckInFrequency.ofStr f
    let ins ← decodeListWith decodeInsight is
    some { name := n, onboardingComplete := b,
           preferences := { goal := goal, checkInFrequency := freq },
           insights := ins }
  | _ => none

def encodeLog (e : CycleLog) : Json :=
  .obj [("date", .str e.date), ("mood", .str e.mood),
        ("symptoms", encodeStrList e.symptoms),
        ("flow", encodeOptFlow e.flow), ("note", .str e.note)]

def decodeLog : Json → Option CycleLog
  | .obj [("date", .str d), ("mood", .str m), ("symptoms", sy),
          ("flow", fl), ("note", .str n)] => do
    let symptoms ← decodeStrList sy
    let flow ← decodeOptFlow fl
    some { date := d, mood := m, symptoms := symptoms, flow := flow, note := n }
  | _ => none

/-- Serialization of the Log store (`luna_logs`). -/
def encodeLogs (l : List CycleLog) : Json :=
  .arr (l.map encodeLog)

def decodeLogs : Json → Option (List CycleLog)
  | .arr xs => decodeListWith decodeLog xs
  | _ => none

def encodeExtraction (e : Extraction) : Json :=
  .obj [("mood", encodeOptStr e.mood),
        ("symptoms", encodeOptStrList e.symptoms),
        ("flow", encodeOptFlow e.flow),
        ("emotional_note", encodeOptStr e.emotional_note)]

def decodeExtraction : Json → Option Extraction
  | .obj [("mood", m), ("symptoms", sy), ("flow", fl), ("emotional_note", n)] => do
    let mood ← decodeOptStr m
    let symptoms ← decodeOptStrList sy
    let flow ← decodeOptFlow fl
    let note ← decodeOptStr n
    some { mood := mood, symptoms := symptoms, flow := flow, emotional_note := note }
  | _ => none

/-- The optional trailing properties of a serialized Message (`type`, `data`);
`JSON.stringify` omits the ones that are undefined. -/
def decodeMsgTail : List (String × Json) → Option (Option MessageType × Option Extraction)
  | [] => some (none, none)
  | [("type", .str t)] => (MessageType.ofStr t).map (fun ty => (some ty, none))
  | [("data", j)] => (decodeExtraction j).map (fun e => (none, some e))
  | [("type", .str t), ("data", j)] => do
    let ty ← MessageType.ofStr t
    let e ← decodeExtraction j
    some (some ty, some e)
  | _ => none

def encodeMessage (m : Message) : Json :=
  .obj ([("id", .str m.id), ("sender", .str m.sender.toStr),
         ("text", .str m.text), ("timestamp", .num (m.timestamp : Rat))]
    ++ (match m.type with | none => [] | some t => [("type", .str t.toStr)])
    ++ (match m.data with | none => [] | some e => [("data", encodeExtraction e)]))

def decodeMessage : Json → Option Message
  | .obj (("id", .str i) :: ("sender", .str s) :: ("text", .str t) ::
          ("timestamp", ts) :: rest) => do
    let sender ← Sender.ofStr s
    let n ← natFromJson ts
    let (ty, da) ← decodeMsgTail rest
    some { id := i, sender := sender, text := t, timestamp := n, type := ty, data := da }
  | _ => none

/-- Serialization of the Conversation store (`luna_chat`). -/
def encodeChat (l : List Message) : Json :=
  .arr (l.map encodeMessage)

def decodeChat : Json → Option (List Message)
  | .arr xs => decodeListWith decodeMessage xs
  | _ => none

/-! ## Concrete values used to instantiate the theorems -/

/-- A concrete onboarded Profile. -/
def demoProfile : Profile :=
  { name := "Ada", onboardingComplete := true,
    preferences := { goal := .healthTracking, checkInFrequency := .morning },
    insights := [] }

/-- A concrete state with a Profile, an API key and a pending input. -/
def demoState : AppState :=
  { profile := some demoProfile, logs := [], chatHistory := [],
    inputValue := "I feel happy", apiKey := "k", lastCheckIn := none }

/-- A concrete pre-onboarding state (no Profile yet). -/
def preOnboardingState : AppState :=
  { profile := none, logs := [], chatHistory := [],
    inputValue := "Ada", apiKey := "", lastCheckIn := none }

/-- The positive gating example from the spec:
`mood = "Happy"`, empty symptom set, null flow. -/
def happyExtraction : Extraction :=
  { mood := some "Happy", symptoms := some [], flow := none, emotional_note := none }

/-- An extraction payload with empty mood, empty symptom set and null flow. -/
def emptyExtraction : Extraction :=
  { mood := some "", symptoms := some [], flow := none, emotional_note := none }

/-- A decoded adapter payload carrying the positive gating example. -/
def happyResult : AIResult :=
  { response := some "ok", text := none, extracted_data := some happyExtraction }

/-- An extraction with no mood, a "Cramps" symptom, null flow and no note. -/
def crampsExtraction : Extraction :=
  { mood := none, symptoms := some ["Cramps"], flow := none, emotional_note := none }

/-- A decoded adapter payload carrying `crampsExtraction`. -/
def crampsResult : AIResult :=
  { response := some "ok", text := none, extracted_data := some crampsExtraction }

end LunaFlow

namespace LunaFlow

/-- Claim C9: submitting an empty or whitespace-only input is a no-op:
`handleSendMessage` returns with the state unchanged — no user message, no
adapter call (the result does not depend on the call outcome), no Log entry,
no Profile. -/
theorem c9_blank_input_is_noop (st : AppState) (now : Nat) (nowISO : String)
    (outcome : CallOutcome) (h : jsTrim st.inputValue = "") :
    handleSendMessage st now nowISO outcome = st := by
  simp [handleSendMessage, h]

/-- Witness for C9 at a concrete whitespace-only input. -/
theorem c9_blank_input_is_noop_witness :
    jsTrim "   " = "" ∧
    handleSendMessage
      { profile := none, logs := [], chatHistory := [], inputValue := "   ",
        apiKey := "", lastCheckIn := none } 0 "" .failure =
      { profile := none, logs := [], chatHistory := [], inputValue := "   ",
        apiKey := "", lastCheckIn := none } :=
  ⟨by decide, c9_blank_input_is_noop _ 0 "" .failure (by decide)⟩

/-- Claim C6: with an empty credential, `generateAIResponse` returns the
fixed instructional reply with no extraction, independently of the call
outcome, and the external model is never constructed or invoked (the network
flag is `false`). -/
theorem c6_missing_key_short_circuits (u : String) (cl : List CycleLog)
    (p : Profile) (outcome : CallOutcome) :
    generateAIResponse "" u cl p outcome =
      ({ response := none, text := some apiKeyMissingReply, extracted_data := none },
       false) := rfl

/-- Claim C3: a non-blank input with no Profile present runs the onboarding
step: a Profile is created whose name is exactly the input text, with
`onboardingComplete = true`, default goal "Health Tracking" and default
check-in frequency "Morning", and exactly one assistant acknowledgment is
appended after the message of the user. -/
theorem c3_onboarding_creates_profile (st : AppState) (now : Nat)
    (nowISO : String) (outcome : CallOutcome)
    (hp : st.profile = none) (hin : jsTrim st.inputValue ≠ "") :
    (handleSendMessage st now nowISO outcome).profile =
      some { name := st.inputValue, onboardingComplete := true,
             preferences := { goal := .healthTracking, checkInFrequency := .morning },
             insights := [] } ∧
    (handleSendMessage st now nowISO outcome).chatHistory =
      st.chatHistory ++ [mkUserMsg now st.inputValue, onboardingAck now st.inputValue] := by
  simp [handleSendMessage, hp, hin, handleOnboardingStep]

/-- Witness for C3 at a concrete state with no Profile and input "Ada". -/
theorem c3_onboarding_creates_profile_witness :
    preOnboardingState.profile = none ∧ jsTrim "Ada" ≠ "" ∧
    (handleSendMessage preOnboardingState 7 "d" .failure).profile =
      some { name := "Ada", onboardingComplete := true,
             preferences := { goal := .healthTracking, checkInFrequency := .morning },
             insights := [] } :=
  ⟨rfl, by decide,
    (c3_onboarding_creates_profile preOnboardingState 7 "d" .failure rfl (by decide)).1⟩

end LunaFlow

namespace LunaFlow

/-- Claim C4: the theme is a pure function of the most recent Log entry only:
empty sequence gives the default theme; otherwise the last entry alone decides
pain / positive / negative / default via the fixed mood and symptom labels,
and earlier entries never influence the result. -/
theorem c4_theme_depends_only_on_last_entry :
    getTheme [] = defaultTheme ∧
    (∀ (pre : List CycleLog) (e : CycleLog),
      getTheme (pre ++ [e]) =
        (if e.symptoms.contains "Cramps" || e.mood == "Pain" then painTheme
         else if e.mood == "Energetic" || e.mood == "Happy" then positiveTheme
         else if e.mood == "Sad" || e.mood == "Irritable" then negativeTheme
         else defaultTheme)) := by
  refine ⟨rfl, ?_⟩
  intro pre e
  simp [getTheme, List.getLast?_concat]

/-- Claim C5: the check-in trigger appends the scripted message exactly when
the persisted marker differs from today and the local hour is ≥ 9, updates
the marker to today in the same step, and therefore two invocations within
the same calendar day append at most one message in total. -/
theorem c5_checkin_at_most_once_per_day (st : AppState) (prof : Profile)
    (d : String) (h h2 n n2 : Nat) (hp : st.profile = some prof) :
    (checkIn st d h n).chatHistory =
      (if st.lastCheckIn ≠ some d ∧ 9 ≤ h
       then st.chatHistory ++ [checkInMsg n prof.name] else st.chatHistory) ∧
    (st.lastCheckIn ≠ some d ∧ 9 ≤ h → (checkIn st d h n).lastCheckIn = some d) ∧
    (checkIn (checkIn st d h n) d h2 n2).chatHistory.length ≤
      st.chatHistory.length + 1 := by
  refine ⟨?_, ?_, ?_⟩
  · by_cases hc : st.lastCheckIn ≠ some d ∧ 9 ≤ h <;> simp [checkIn, hp, hc]
  · intro hc; simp [checkIn, hp, hc]
  · by_cases hc : st.lastCheckIn ≠ some d ∧ 9 ≤ h
    · simp [checkIn, hp, hc]
    · simp only [checkIn, hp, if_neg hc]
      by_cases hc2 : st.lastCheckIn ≠ some d ∧ 9 ≤ h2 <;> simp [hc2]

/-- Witness for C5 at a concrete state: the first invocation fires, the
second the same day appends nothing. -/
theorem c5_checkin_at_most_once_per_day_witness :
    demoState.profile = some demoProfile ∧
    (checkIn (checkIn demoState "Mon Jan 05 2026" 10 3) "Mon Jan 05 2026" 11 4).chatHistory.length ≤
      demoState.chatHistory.length + 1 :=
  ⟨rfl, (c5_checkin_at_most_once_per_day demoState demoProfile
          "Mon Jan 05 2026" 10 11 3 4 rfl).2.2⟩

/-- Claim C8: the Log sequence is append-only: every operation of the program
either leaves it unchanged or appends exactly one entry at the end, so the
old sequence is always a prefix of the new one. -/
theorem c8_logs_append_only (st : AppState) (op : Op) :
    ((applyOp st op).logs = st.logs ∨
      ∃ e, (applyOp st op).logs = st.logs ++ [e]) ∧
    ∃ tail, (applyOp st op).logs = st.logs ++ tail := by
  have key : (applyOp st op).logs = st.logs ∨
      ∃ e, (applyOp st op).logs = st.logs ++ [e] := by
    cases op with
    | send now nowISO outcome =>
      simp only [applyOp, handleSendMessage]
      split
      · exact Or.inl rfl
      · split
        · unfold handleOnboardingStep
          split <;> exact Or.inl rfl
        · split
          · exact Or.inl rfl
          · split
            · exact Or.inr ⟨_, rfl⟩
            · exact Or.inl rfl
    | checkin d hh n =>
      simp only [applyOp, checkIn]
      split
      · exact Or.inl rfl
      · split <;> exact Or.inl rfl
    | setInput s => exact Or.inl rfl
    | setApiKey s => exact Or.inl rfl
  refine ⟨key, ?_⟩
  rcases key with hsame | ⟨e, happ⟩
  · exact ⟨[], by simp [hsame]⟩
  · exact ⟨[e], happ⟩

/-- Claim C1: with a Profile present, a decoded adapter payload appends a new
CycleLog entry and marks the assistant Message as log-confirmation carrying
the extraction data if and only if the extraction is present (mood non-empty,
or symptom set non-empty, or flow non-null); otherwise the Log is unchanged
and the Message is plain.  In particular `{mood: "Happy", symptoms: [],
flow: null}` is present and yields a Log entry with mood "Happy". -/
theorem c1_extraction_gating (st : AppState) (prof : Profile) (now : Nat)
    (nowISO : String) (r : AIResult) (e : Extraction)
    (hp : st.profile = some prof) (hin : jsTrim st.inputValue ≠ "")
    (hk : st.apiKey ≠ "") (hr : r.extracted_data = some e) :
    ((handleSendMessage st now nowISO (.success r)).logs =
      if extractionPresent e then st.logs ++ [logFromExtraction nowISO e]
      else st.logs) ∧
    ((handleSendMessage st now nowISO (.success r)).chatHistory.getLast?.map
        (fun m => (m.type, m.data)) =
      some (if extractionPresent e
            then (some MessageType.logConfirmation, some e)
            else (some MessageType.text, none))) ∧
    extractionPresent happyExtraction = true ∧
    (∀ d : String, (logFromExtraction d happyExtraction).mood = "Happy") := by
  refine ⟨?_, ?_, by decide, fun d => by simp [logFromExtraction, happyExtraction]⟩
  · by_cases hpres : extractionPresent e = true <;>
      simp [handleSendMessage, generateAIResponse, hp, hin, hk, hr, hpres]
  · by_cases hpres : extractionPresent e = true <;>
      simp [handleSendMessage, generateAIResponse, hp, hin, hk, hr, hpres,
        List.getLast?_append_cons]

/-- Witness for C1 at a concrete state and the Happy payload. -/
theorem c1_extraction_gating_witness :
    demoState.profile = some demoProfile ∧ jsTrim demoState.inputValue ≠ "" ∧
    demoState.apiKey ≠ "" ∧ happyResult.extracted_data = some happyExtraction ∧
    ((handleSendMessage demoState 5 "2026-01-05" (.success happyResult)).logs =
      if extractionPresent happyExtraction
      then demoState.logs ++ [logFromExtraction "2026-01-05" happyExtraction]
      else demoState.logs) :=
  ⟨rfl, by decide, by decide, rfl,
    (c1_extraction_gating demoState demoProfile 5 "2026-01-05" happyResult
      happyExtraction rfl (by decide) (by decide) rfl).1⟩

/-- Claim C2: a request or decode failure makes `generateAIResponse` return
exactly the fixed fallback reply with no extraction, and the turn appends no
CycleLog entry. -/
theorem c2_failure_returns_fallback (st : AppState) (prof : Profile)
    (now : Nat) (nowISO : String)
    (hp : st.profile = some prof) (hin : jsTrim st.inputValue ≠ "")
    (hk : st.apiKey ≠ "") :
    (generateAIResponse st.apiKey st.inputValue st.logs prof .failure).1 =
      { response := some fallbackReply, text := none, extracted_data := none } ∧
    (handleSendMessage st now nowISO .failure).logs = st.logs ∧
    ((handleSendMessage st now nowISO .failure).chatHistory.getLast?.map
        (fun m => (m.text, m.data))) = some (fallbackReply, none) := by
  have hne : (fallbackReply == "") = false := by decide
  refine ⟨by simp [generateAIResponse, hk], ?_, ?_⟩ <;>
    simp [handleSendMessage, generateAIResponse, hp, hin, hk,
      List.getLast?_append_cons, replyText, jsOrElseStr, hne]

/-- Witness for C2 at a concrete state. -/
theorem c2_failure_returns_fallback_witness :
    demoState.profile = some demoProfile ∧ jsTrim demoState.inputValue ≠ "" ∧
    demoState.apiKey ≠ "" ∧
    (handleSendMessage demoState 5 "2026-01-05" .failure).logs = demoState.logs :=
  ⟨rfl, by decide, by decide,
    (c2_failure_returns_fallback demoState demoProfile 5 "2026-01-05" rfl
      (by decide) (by decide)).2.1⟩

/-- Claim C10: when an extraction is present and a CycleLog entry is
appended, absent or empty fields get fixed defaults — mood "Neutral",
symptoms `[]`, flow null, note "" — and the date of the entry is the creation
timestamp, never taken from the payload. -/
theorem c10_appended_log_defaults (st : AppState) (prof : Profile) (now : Nat)
    (nowISO : String) (r : AIResult) (e : Extraction)
    (hp : st.profile = some prof) (hin : jsTrim st.inputValue ≠ "")
    (hk : st.apiKey ≠ "") (hr : r.extracted_data = some e)
    (hpres : extractionPresent e = true) :
    ((handleSendMessage st now nowISO (.success r)).logs =
      st.logs ++ [logFromExtraction nowISO e]) ∧
    (e.mood = none ∨ e.mood = some "" → (logFromExtraction nowISO e).mood = "Neutral") ∧
    (e.symptoms = none → (logFromExtraction nowISO e).symptoms = []) ∧
    ((logFromExtraction nowISO e).flow = e.flow) ∧
    (e.emotional_note = none → (logFromExtraction nowISO e).note = "") ∧
    ((logFromExtraction nowISO e).date = nowISO) := by
  refine ⟨?_, ?_, ?_, rfl, ?_, rfl⟩
  · simp [handleSendMessage, generateAIResponse, hp, hin, hk, hr, hpres]
  · rintro (hm | hm) <;> simp [logFromExtraction, hm]
  · intro hs; simp [logFromExtraction, hs]
  · intro hn; simp [logFromExtraction, hn]

/-- Witness for C10 at a payload with no mood, a "Cramps" symptom and no
note: the appended entry defaults mood to "Neutral" and note to "". -/
theorem c10_appended_log_defaults_witness :
    demoState.profile = some demoProfile ∧ jsTrim demoState.inputValue ≠ "" ∧
    demoState.apiKey ≠ "" ∧ crampsResult.extracted_data = some crampsExtraction ∧
    extractionPresent crampsExtraction = true ∧
    (handleSendMessage demoState 5 "2026-01-05" (.success crampsResult)).logs =
      demoState.logs ++ [logFromExtraction "2026-01-05" crampsExtraction] :=
  ⟨rfl, by decide, by decide, rfl, by decide,
    (c10_appended_log_defaults demoState demoProfile 5 "2026-01-05" crampsResult
      crampsExtraction rfl (by decide) (by decide) rfl (by decide)).1⟩

end LunaFlow

namespace LunaFlow

/-- Mapping an encoder over a list and decoding elementwise recovers the
list, provided the decoder inverts the encoder on each element. -/
theorem decodeListWith_map {α : Type} (f : α → Json) (g : Json → Option α)
    (h : ∀ a, g (f a) = some a) : ∀ l : List α, decodeListWith g (l.map f) = some l := by
  intro l
  induction l with
  | nil => rfl
  | cons a t ih => simp [decodeListWith, h, ih]

theorem goal_ofStr_toStr (g : Goal) : Goal.ofStr g.toStr = some g := by
  cases g <;> decide

theorem freq_ofStr_toStr (f : CheckInFrequency) :
    CheckInFrequency.ofStr f.toStr = some f := by
  cases f <;> decide

theorem flow_ofStr_toStr (f : Flow) : Flow.ofStr f.toStr = some f := by
  cases f <;> decide

theorem sender_ofStr_toStr (s : Sender) : Sender.ofStr s.toStr = some s := by
  cases s <;> decide

theorem msgType_ofStr_toStr (t : MessageType) :
    MessageType.ofStr t.toStr = some t := by
  cases t <;> decide

theorem natFromJson_natCast (n : Nat) : natFromJson (.num (n : Rat)) = some n := by
  simp [natFromJson]

theorem decodeOptStr_encode (o : Option String) :
    decodeOptStr (encodeOptStr o) = some o := by
  cases o <;> rfl

theorem decodeOptFlow_encode (o : Option Flow) :
    decodeOptFlow (encodeOptFlow o) = some o := by
  cases o with
  | none => rfl
  | some f => simp [encodeOptFlow, decodeOptFlow, flow_ofStr_toStr]

theorem decodeStrList_encode (l : List String) :
    decodeStrList (encodeStrList l) = some l := by
  simpa [encodeStrList, decodeStrList] using
    decodeListWith_map Json.str decodeStr (fun s => rfl) l

theorem decodeOptStrList_encode (o : Option (List String)) :
    decodeOptStrList (encodeOptStrList o) = some o := by
  cases o with
  | none => rfl
  | some l =>
    simpa [encodeOptStrList, encodeStrList, decodeOptStrList] using
      decodeListWith_map Json.str decodeStr (fun s => rfl) l

theorem decodeInsight_encode (i : Insight) :
    decodeInsight (encodeInsight i) = some i := rfl

theorem decodeProfile_encode (p : Profile) :
    decodeProfile (encodeProfile p) = some p := by
  simp [encodeProfile, decodeProfile, goal_ofStr_toStr, freq_ofStr_toStr,
    decodeListWith_map encodeInsight decodeInsight decodeInsight_encode]

theorem decodeLog_encode (e : CycleLog) : decodeLog (encodeLog e) = some e := by
  simp [encodeLog, decodeLog, decodeStrList_encode, decodeOptFlow_encode]

theorem decodeExtraction_encode (e : Extraction) :
    decodeExtraction (encodeExtraction e) = some e := by
  simp [encodeExtraction, decodeExtraction, decodeOptStr_encode,
    decodeOptStrList_encode, decodeOptFlow_encode]

theorem decodeMessage_encode (m : Message) :
    decodeMessage (encodeMessage m) = some m := by
  rcases m with ⟨i, s, t, ts, ty, da⟩
  cases ty <;> cases da <;>
    simp [encodeMessage, decodeMessage, decodeMsgTail, sender_ofStr_toStr,
      msgType_ofStr_toStr, natFromJson_natCast, decodeExtraction_encode]

/-- Claim C7: serializing the Profile, the Log sequence and the Conversation
sequence to their storage slots and deserializing them back yields
structurally identical values. -/
theorem c7_persistence_roundtrip :
    (∀ p : Profile, decodeProfile (encodeProfile p) = some p) ∧
    (∀ logs : List CycleLog, decodeLogs (encodeLogs logs) = some logs) ∧
    (∀ msgs : List Message, decodeChat (encodeChat msgs) = some msgs) := by
  refine ⟨decodeProfile_encode, ?_, ?_⟩
  · intro logs
    simpa [encodeLogs, decodeLogs] using
      decodeListWith_map encodeLog decodeLog decodeLog_encode logs
  · intro msgs
    simpa [encodeChat, decodeChat] using
      decodeListWith_map encodeMessage decodeMessage decodeMessage_encode msgs

end LunaFlow
